import Mathlib

/-!
# Verification of the urbn simulation core

Shallow embedding of the simulation-stream state machine
(`backend/simulation_agents/simulation_agent.py`), the result cache
(`backend/simulation_agents/data_cache.py`) and the thought-event log
(`backend/simulation_agents/thoughts_stream_agent.py`).

Modelling conventions:
* Python dictionaries with a fixed key set become structures; `dict.get(k, d)`
  becomes `Option.getD`.
* Python floats are modelled as exact rationals (`ℚ`); `int()` conversion is
  truncation toward zero (`pytrunc`).
* Wall-clock timestamps and purely decorative `message` fields of events are
  not modelled (they carry no specified behaviour); `datetime` values are
  abstract rational timestamps measured in hours.
* `random.choice` / `random.randint` / `random.uniform` draws are supplied by
  an explicit oracle (`StepRand` per simulation step); the Python ranges are
  captured by the predicate `StepRand.InRange`.
* `hashlib.md5(x).hexdigest()` is modelled as the injective encoding that
  returns the hashed input string itself (collisions are abstracted away).
-/

/-! ## Thought log (`thoughts_stream_agent.py`) -/

/-- A thought event — the dict with keys `timestamp`, `agent`, `type`,
`message`, `metadata` as built by `ThoughtsStreamManager.emit_thought`. -/
structure Thought where
  timestamp : Nat
  agent : String
  type : String
  message : String
  metadata : List (String × String)
deriving DecidableEq, Repr

/-- `self.max_thoughts = 100`. -/
def max_thoughts : Nat := 100

/-- The last `n` elements of a list (Python `l[-n:]` for `n > 0`). -/
def takeLast {α : Type} (n : Nat) (l : List α) : List α :=
  l.drop (l.length - n)

/-- `if len(self.thoughts) > self.max_thoughts: self.thoughts = self.thoughts[-self.max_thoughts:]`. -/
def trimThoughts (l : List Thought) : List Thought :=
  if l.length > max_thoughts then l.drop (l.length - max_thoughts) else l

/-- State of `ThoughtsStreamManager`: the `thoughts` buffer and the
`subscribers` list. A subscriber is a callback that may raise
(modelled as `Except String Unit`). -/
structure ThoughtsStreamManager where
  thoughts : List Thought
  subscribers : List (Thought → Except String Unit)

/-- `for subscriber in self.subscribers: subscriber(thought)` — calls run in
list order; the first raised exception aborts the loop and propagates. -/
def notifySubscribers : List (Thought → Except String Unit) → Thought → Except String Unit
  | [], _ => Except.ok ()
  | f :: fs, t =>
    match f t with
    | Except.ok _ => notifySubscribers fs t
    | Except.error e => Except.error e

/-- `ThoughtsStreamManager.emit_thought`: build the thought, append it,
trim the buffer to the last 100 entries, then notify subscribers.  The
buffer mutation persists even if a subscriber raises (the list was already
mutated in place), so the new state is returned in either case; the second
component is the returned thought, or the propagated subscriber error. -/
def ThoughtsStreamManager.emit_thought (st : ThoughtsStreamManager) (now : Nat)
    (agent ttype message : String) (metadata : List (String × String)) :
    ThoughtsStreamManager × Except String Thought :=
  let t : Thought := ⟨now, agent, ttype, message, metadata⟩
  let buf := trimThoughts (st.thoughts ++ [t])
  ({ st with thoughts := buf }, (notifySubscribers st.subscribers t).map fun _ => t)

/-- `get_recent_thoughts(limit)` = `self.thoughts[-limit:]`.  For `limit = 0`
the Python slice `l[-0:] = l[0:]` is the whole buffer. -/
def ThoughtsStreamManager.get_recent_thoughts (st : ThoughtsStreamManager)
    (limit : Nat) : List Thought :=
  if limit = 0 then st.thoughts else st.thoughts.drop (st.thoughts.length - limit)

/-- `get_thoughts_by_agent(agent_type, limit)`: filter by exact agent tag, then
apply the same `[-limit:]` windowing. -/
def ThoughtsStreamManager.get_thoughts_by_agent (st : ThoughtsStreamManager)
    (agent : String) (limit : Nat) : List Thought :=
  let agent_thoughts := st.thoughts.filter fun t => t.agent = agent
  if limit = 0 then agent_thoughts
  else agent_thoughts.drop (agent_thoughts.length - limit)

/-- `subscribe(callback)` appends to the subscriber list (registration order). -/
def ThoughtsStreamManager.subscribe (st : ThoughtsStreamManager)
    (f : Thought → Except String Unit) : ThoughtsStreamManager :=
  { st with subscribers := st.subscribers ++ [f] }

/-- A sequence of `emit_thought` calls, each call's arguments packaged as the
thought it records; only the resulting manager state is kept. -/
def recordAll (st : ThoughtsStreamManager) (ts : List Thought) : ThoughtsStreamManager :=
  ts.foldl (fun s t => (s.emit_thought t.timestamp t.agent t.type t.message t.metadata).1) st

/-! ## Cache (`data_cache.py`) -/

/-- Association-list model of a Python `dict` (unique keys). -/
def lookupKey {β : Type} (key : String) : List (String × β) → Option β
  | [] => none
  | (k, v) :: rest => if k = key then some v else lookupKey key rest

/-- `d[key] = v` (overwrite in place, or append if absent). -/
def storeKey {β : Type} (key : String) (v : β) : List (String × β) → List (String × β)
  | [] => [(key, v)]
  | (k, w) :: rest => if k = key then (k, v) :: rest else (k, w) :: storeKey key v rest

/-- `del d[key]`. -/
def eraseKey {β : Type} (key : String) : List (String × β) → List (String × β)
  | [] => []
  | (k, w) :: rest => if k = key then rest else (k, w) :: eraseKey key rest

/-- Insertion step for `sorted(files)` (sorted by file name). -/
def insertByName (f : String × Nat) : List (String × Nat) → List (String × Nat)
  | [] => [f]
  | g :: rest => if g.1 < f.1 then g :: insertByName f rest else f :: g :: rest

/-- `sorted([...])`: the document files sorted by name. -/
def sortByName (l : List (String × Nat)) : List (String × Nat) :=
  l.foldr insertByName []

/-- `get_document_hash()`: hash of the `name:mtime` pairs of the current
documents, `"no_documents"` if there are none.  `md5` is modelled as the
identity on the joined input string. -/
def get_document_hash (files : List (String × Nat)) : String :=
  if files = [] then "no_documents"
  else String.intercalate "|" ((sortByName files).map fun f => f.1 ++ ":" ++ toString f.2)

/-- `get_cache_key_for_policy_analysis()`. -/
def get_cache_key_for_policy_analysis (files : List (String × Nat)) : String :=
  "policy_analysis:" ++ get_document_hash files

/-- `get_cache_key_for_city_data(city)`. -/
def get_cache_key_for_city_data (city : String) (files : List (String × Nat)) : String :=
  "city_data:" ++ city ++ ":" ++ get_document_hash files

/-- `get_cache_key_for_map_visualization(policy_analysis)`; the policy analysis
payload is represented by its canonical (`sort_keys=True`) serialization. -/
def get_cache_key_for_map_visualization (policy_str : String) : String :=
  "map_viz:" ++ policy_str

/-- Entry of `_policy_analysis_cache`. -/
structure PolicyCacheEntry (α : Type) where
  data : α
  document_hash : String
  cached_at : ℚ
deriving DecidableEq, Repr

/-- Entry of `_city_data_cache`. -/
structure CityCacheEntry (α : Type) where
  data : α
  cached_at : ℚ
deriving DecidableEq, Repr

/-- Entry of `_map_visualization_cache`. -/
structure MapCacheEntry (α : Type) where
  data : α
  policy_hash : String
  cached_at : ℚ
deriving DecidableEq, Repr

/-- `get_cached_policy_analysis()`: look up under the current key; if found,
compare the stored document hash with the current one, returning the data on a
match and deleting the entry on a mismatch. Returns the result together with
the possibly-updated cache. -/
def get_cached_policy_analysis {α : Type} (files : List (String × Nat))
    (cache : List (String × PolicyCacheEntry α)) :
    Option α × List (String × PolicyCacheEntry α) :=
  let key := get_cache_key_for_policy_analysis files
  match lookupKey key cache with
  | some e =>
    if e.document_hash = get_document_hash files then (some e.data, cache)
    else (none, eraseKey key cache)
  | none => (none, cache)

/-- `cache_policy_analysis(data)`. -/
def cache_policy_analysis {α : Type} (data : α) (files : List (String × Nat)) (now : ℚ)
    (cache : List (String × PolicyCacheEntry α)) : List (String × PolicyCacheEntry α) :=
  storeKey (get_cache_key_for_policy_analysis files)
    ⟨data, get_document_hash files, now⟩ cache

/-- `get_cached_city_data(city)`: look up under the current key; if found,
return the data when the entry is younger than 24 hours, and delete it
otherwise. -/
def get_cached_city_data {α : Type} (city : String) (files : List (String × Nat))
    (now : ℚ) (cache : List (String × CityCacheEntry α)) :
    Option α × List (String × CityCacheEntry α) :=
  let key := get_cache_key_for_city_data city files
  match lookupKey key cache with
  | some e =>
    if now - e.cached_at < 24 then (some e.data, cache)
    else (none, eraseKey key cache)
  | none => (none, cache)

/-- `cache_city_data(city, data)`. -/
def cache_city_data {α : Type} (city : String) (data : α) (files : List (String × Nat))
    (now : ℚ) (cache : List (String × CityCacheEntry α)) :
    List (String × CityCacheEntry α) :=
  storeKey (get_cache_key_for_city_data city files) ⟨data, now⟩ cache

/-- `get_cached_map_visualization(policy_analysis)`. -/
def get_cached_map_visualization {α : Type} (policy_str : String)
    (cache : List (String × MapCacheEntry α)) :
    Option α × List (String × MapCacheEntry α) :=
  let key := get_cache_key_for_map_visualization policy_str
  match lookupKey key cache with
  | some e =>
    if e.policy_hash = policy_str then (some e.data, cache)
    else (none, eraseKey key cache)
  | none => (none, cache)

/-- `cache_map_visualization(policy_analysis, data)`. -/
def cache_map_visualization {α : Type} (policy_str : String) (data : α) (now : ℚ)
    (cache : List (String × MapCacheEntry α)) : List (String × MapCacheEntry α) :=
  storeKey (get_cache_key_for_map_visualization policy_str) ⟨data, policy_str, now⟩ cache

/-! ## Simulation stream engine (`simulation_agent.py`) -/

/-- The mutable simulated-city metrics vector `current_metrics`.  Count-like
metrics are Python ints (`ℤ` here); `traffic_congestion` and `gdp_growth` are
Python floats (`ℚ` here). -/
structure Metrics where
  population : ℤ
  housing_units : ℤ
  traffic_congestion : ℚ
  gdp_growth : ℚ
  affordability_index : ℤ
  air_quality : ℤ
  public_satisfaction : ℤ
deriving DecidableEq, Repr

/-- The fields of the policy-analysis dict the engine reads
(`policy_intent`, `affected_areas`, `target_city`); `none` models an absent
key. -/
structure PolicyAnalysis where
  policy_intent : Option String
  affected_areas : Option (List String)
  target_city : Option String
deriving DecidableEq, Repr

/-- The `numbers` sub-dict of a city-data result. -/
structure CityNumbers where
  population_number : Option ℤ
  housing_number : Option ℤ
  traffic_percentage : Option ℚ
  gdp_percentage : Option ℚ
deriving DecidableEq, Repr

/-- The fields of the city-data dict the engine reads. -/
structure CityData where
  city : Option String
  numbers : Option CityNumbers
deriving DecidableEq, Repr

/-- An empty policy-analysis dict. -/
def emptyPolicyAnalysis : PolicyAnalysis := ⟨none, none, none⟩

/-- A city-data dict with no usable keys. -/
def emptyCityNumbers : CityNumbers := ⟨none, none, none, none⟩

/-- Python `int()` applied to a float: truncation toward zero. -/
def pytrunc (q : ℚ) : ℤ := if 0 ≤ q then ⌊q⌋ else ⌈q⌉

/-- `steps_per_phase = 5 if granularity == "Micro" else 3`. -/
def steps_per_phase (granularity : String) : ℕ :=
  if granularity = "Micro" then 5 else 3

/-- `change_multiplier = 0.5 if granularity == "Micro" else 1.5`. -/
def change_multiplier (granularity : String) : ℚ :=
  if granularity = "Micro" then 1/2 else 3/2

/-- One entry of the `phases` list. -/
structure PhaseInfo where
  name : String
  duration : ℕ
  description : String
deriving DecidableEq, Repr

/-- The 8 fixed simulation phases. -/
def phases : List PhaseInfo :=
  [⟨"Initialization", 2, "Setting up simulation environment"⟩,
   ⟨"Policy Analysis", 3, "Analyzing policy implications"⟩,
   ⟨"Infrastructure Planning", 4, "Planning infrastructure changes"⟩,
   ⟨"Housing Development", 5, "Simulating housing construction"⟩,
   ⟨"Transportation Impact", 4, "Analyzing traffic and transit changes"⟩,
   ⟨"Economic Effects", 3, "Calculating economic impact"⟩,
   ⟨"Community Impact", 3, "Assessing community effects"⟩,
   ⟨"Final Assessment", 2, "Compiling final results"⟩]

/-- One entry of the `agents` roster. -/
structure AgentInfo where
  name : String
  icon : String
  color : String
deriving DecidableEq, Repr

/-- The 6 fixed simulation agents. -/
def agents : List AgentInfo :=
  [⟨"Urban Planner", "🏗️", "#3b82f6"⟩,
   ⟨"Transportation Engineer", "🚇", "#10b981"⟩,
   ⟨"Housing Developer", "🏠", "#f59e0b"⟩,
   ⟨"Economic Analyst", "📊", "#8b5cf6"⟩,
   ⟨"Community Liaison", "👥", "#ec4899"⟩,
   ⟨"Environmental Specialist", "🌳", "#22c55e"⟩]

/-- The per-step `activities` table (keyed by agent name, Micro variant when
`granularity == "Micro"`, Macro variant otherwise). -/
def activities_dict (granularity : String) : List (String × List String) :=
  if granularity = "Micro" then
    [("Urban Planner",
      ["Reviewing specific zoning code section 12.3.4 for residential density",
       "Analyzing building permit application #2024-0456",
       "Coordinating with Planning Department on Mission District overlay",
       "Drafting site-specific development plan for 16th & Valencia",
       "Meeting with property owner at 1234 Market Street"]),
     ("Transportation Engineer",
      ["Modeling traffic flow at 16th & Mission intersection during rush hour",
       "Analyzing bike lane capacity on Valencia Street (0.5 mile segment)",
       "Reviewing Muni bus route 14 stop frequency at 8am-9am",
       "Calculating signal timing optimization for 5-block corridor",
       "Assessing pedestrian crossing safety at specific intersections"]),
     ("Housing Developer",
      ["Securing construction permit for 45-unit building at 567 Mission St",
       "Breaking ground on foundation for Building A, Phase 1",
       "Coordinating with contractor for concrete pour on Tuesday",
       "Managing project timeline: 30% complete, on schedule",
       "Completing framing for units 101-105 in Building B"]),
     ("Economic Analyst",
      ["Calculating GDP impact: $2.3M from construction phase",
       "Analyzing job creation: 45 construction jobs, 12 permanent",
       "Assessing tax revenue: $125K annual property tax increase",
       "Modeling economic growth: 0.15% local GDP increase",
       "Evaluating investment returns: 8.2% ROI for investors"]),
     ("Community Liaison",
      ["Conducting public meeting at Mission Community Center (45 attendees)",
       "Gathering feedback: 23 support, 8 concerns, 14 neutral",
       "Addressing resident concern about construction noise at 7am",
       "Coordinating outreach: 150 door hangers distributed",
       "Building community support: 68% approval rating"]),
     ("Environmental Specialist",
      ["Assessing air quality: PM2.5 levels at 12.3 μg/m³ (below 15 threshold)",
       "Evaluating green space: 0.3 acres needed, 0.5 acres allocated",
       "Analyzing carbon footprint: 45 tons CO2 offset from green building",
       "Planning sustainability: 15% energy reduction from solar panels",
       "Monitoring environmental metrics: All targets met for Q1"])]
  else
    [("Urban Planner",
      ["Analyzing city-wide zoning regulations",
       "Reviewing comprehensive building codes",
       "Planning regional infrastructure layout",
       "Coordinating with multiple city departments",
       "Drafting strategic development plans"]),
     ("Transportation Engineer",
      ["Modeling city-wide traffic flow patterns",
       "Designing comprehensive transit routes",
       "Analyzing regional road capacity",
       "Planning city-wide bike lane network",
       "Optimizing signal timing across corridors"]),
     ("Housing Developer",
      ["Securing permits for multiple construction projects",
       "Breaking ground on major development sites",
       "Coordinating with multiple contractors",
       "Managing portfolio of project timelines",
       "Completing housing units across development sites"]),
     ("Economic Analyst",
      ["Calculating city-wide GDP impact",
       "Analyzing regional job creation",
       "Assessing aggregate tax revenue",
       "Modeling overall economic growth",
       "Evaluating investment portfolio returns"]),
     ("Community Liaison",
      ["Conducting city-wide public meetings",
       "Gathering comprehensive community feedback",
       "Addressing major resident concerns",
       "Coordinating large-scale outreach",
       "Building broad community support"]),
     ("Environmental Specialist",
      ["Assessing city-wide air quality impact",
       "Evaluating regional green space needs",
       "Analyzing comprehensive carbon footprint",
       "Planning city-wide sustainability measures",
       "Monitoring aggregate environmental metrics"])]

/-- `random.choice(activities.get(agent["name"], ["Working on policy implementation"]))`,
with the uniform draw supplied as an index. -/
def chooseActivity (granularity agentName : String) (idx : Fin 5) : String :=
  let opts := (lookupKey agentName (activities_dict granularity)).getD
    ["Working on policy implementation"]
  (opts.get? idx.val).getD ""

/-- The random draws a single simulation step consumes: the chosen agent, the
chosen activity, and the `randint` / `uniform` values appearing in
`base_changes` for each role. -/
structure StepRand where
  agentIdx : Fin 6
  activityIdx : Fin 5
  upHousing : ℤ
  teTraffic : ℤ
  teSat : ℤ
  hdHousing : ℤ
  hdAfford : ℤ
  eaGdp : ℚ
  eaPop : ℤ
  clSat : ℤ
  clAfford : ℤ
  esAir : ℤ
  esSat : ℤ
deriving DecidableEq, Repr

/-- The ranges Python's `random.randint` / `random.uniform` calls guarantee for
the draws in `base_changes`. -/
def StepRand.InRange (r : StepRand) : Prop :=
  50 ≤ r.upHousing ∧ r.upHousing ≤ 200 ∧
  1 ≤ r.teTraffic ∧ r.teTraffic ≤ 5 ∧
  1 ≤ r.teSat ∧ r.teSat ≤ 3 ∧
  100 ≤ r.hdHousing ∧ r.hdHousing ≤ 500 ∧
  1 ≤ r.hdAfford ∧ r.hdAfford ≤ 5 ∧
  1/10 ≤ r.eaGdp ∧ r.eaGdp ≤ 3/10 ∧
  100 ≤ r.eaPop ∧ r.eaPop ≤ 500 ∧
  2 ≤ r.clSat ∧ r.clSat ≤ 8 ∧
  1 ≤ r.clAfford ∧ r.clAfford ≤ 3 ∧
  1 ≤ r.esAir ∧ r.esAir ≤ 5 ∧
  1 ≤ r.esSat ∧ r.esSat ≤ 4

instance (r : StepRand) : Decidable r.InRange := by
  unfold StepRand.InRange
  exact inferInstance

/-- The `base_changes` update for one step: the chosen agent's deltas scaled by
`change_multiplier`, applied with a floor of 0 per metric
(`traffic_congestion` and `gdp_growth` without truncation, the integer-typed
metrics with `int()` truncation of the adjusted delta). -/
def applyAgentChanges (agentName : String) (mult : ℚ) (r : StepRand) (m : Metrics) : Metrics :=
  if agentName = "Urban Planner" then
    { m with
      housing_units := max 0 (m.housing_units + pytrunc ((r.upHousing : ℚ) * mult)),
      gdp_growth := max 0 (m.gdp_growth + (1/10) * mult) }
  else if agentName = "Transportation Engineer" then
    { m with
      traffic_congestion := max 0 (m.traffic_congestion + (-(r.teTraffic : ℚ)) * mult),
      public_satisfaction := max 0 (m.public_satisfaction + pytrunc ((r.teSat : ℚ) * mult)) }
  else if agentName = "Housing Developer" then
    { m with
      housing_units := max 0 (m.housing_units + pytrunc ((r.hdHousing : ℚ) * mult)),
      affordability_index := max 0 (m.affordability_index + pytrunc ((r.hdAfford : ℚ) * mult)) }
  else if agentName = "Economic Analyst" then
    { m with
      gdp_growth := max 0 (m.gdp_growth + r.eaGdp * mult),
      population := max 0 (m.population + pytrunc ((r.eaPop : ℚ) * mult)) }
  else if agentName = "Community Liaison" then
    { m with
      public_satisfaction := max 0 (m.public_satisfaction + pytrunc ((r.clSat : ℚ) * mult)),
      affordability_index := max 0 (m.affordability_index + pytrunc ((r.clAfford : ℚ) * mult)) }
  else if agentName = "Environmental Specialist" then
    { m with
      air_quality := max 0 (m.air_quality + pytrunc ((r.esAir : ℚ) * mult)),
      public_satisfaction := max 0 (m.public_satisfaction + pytrunc ((r.esSat : ℚ) * mult)) }
  else m

/-- The typed events yielded by `simulate_policy_impact_stream_events` (wall-clock
timestamps and decorative `message` strings omitted). -/
inductive SimEvent where
  | simulation_start (metrics : Metrics) (policy_intent : String)
      (affected_areas : List String) (simulation_type granularity : String)
      (time_horizon : ℤ)
  | phase_start (phase : String) (phase_index total_phases : ℕ) (description : String)
  | agent_activity (phase : String) (phase_index step total_steps : ℕ)
      (agent activity granularity : String) (metrics : Metrics) (progress : ℚ)
  | phase_complete (phase : String) (phase_index : ℕ) (metrics : Metrics) (progress : ℚ)
  | simulation_complete (final_metrics : Metrics) (summary : String)
      (policy_intent : String) (affected_areas : List String) (time_horizon : ℤ)
      (progress : ℚ)
deriving DecidableEq, Repr

/-- The run parameters plus the randomness oracle (one `StepRand` per global
step number). -/
structure SimParams where
  simulation_type : String
  granularity : String
  time_horizon : ℤ
  rand : ℕ → StepRand

/-- `progress` of an `agent_activity` event:
`((phase_index * steps_per_phase + step + 1) / (len(phases) * steps_per_phase)) * 100`. -/
def activityProgress (phaseIdx j s : ℕ) : ℚ :=
  (((phaseIdx * s + j + 1 : ℕ) : ℚ) / ((phases.length * s : ℕ) : ℚ)) * 100

/-- `progress` of a `phase_complete` event: `((phase_index + 1) / len(phases)) * 100`. -/
def phaseCompleteProgress (phaseIdx : ℕ) : ℚ :=
  (((phaseIdx + 1 : ℕ) : ℚ) / ((phases.length : ℕ) : ℚ)) * 100

/-- The inner `for step in range(steps_per_phase)` loop: update the metrics and
yield one `agent_activity` event per step.  Returns the final metrics and the
events in emission order. -/
def runSteps (p : SimParams) (phaseName : String) (phaseIdx s : ℕ) :
    List ℕ → Metrics → Metrics × List SimEvent
  | [], m => (m, [])
  | j :: js, m =>
    let r := p.rand (phaseIdx * s + j)
    let agent := agents.getD r.agentIdx.val ⟨"", "", ""⟩
    let activity := chooseActivity p.granularity agent.name r.activityIdx
    let m' := applyAgentChanges agent.name (change_multiplier p.granularity) r m
    let rest := runSteps p phaseName phaseIdx s js m'
    (rest.1,
      SimEvent.agent_activity phaseName phaseIdx (j + 1) s agent.name activity
        p.granularity m' (activityProgress phaseIdx j s) :: rest.2)

/-- The outer `for phase_index, phase in enumerate(phases)` loop: yield
`phase_start`, the step events, and `phase_complete` per phase. -/
def runPhases (p : SimParams) (s : ℕ) :
    List (ℕ × PhaseInfo) → Metrics → Metrics × List SimEvent
  | [], m => (m, [])
  | (i, ph) :: rest, m =>
    let stepsOut := runSteps p ph.name i s (List.range s) m
    let restOut := runPhases p s rest stepsOut.1
    (restOut.1,
      SimEvent.phase_start ph.name i phases.length ph.description ::
        (stepsOut.2 ++
          SimEvent.phase_complete ph.name i stepsOut.1 (phaseCompleteProgress i) :: restOut.2))

/-- The `except` fallback for the final Gemini summary: the f-string
"Policy simulation completed. Key changes observed in (city name) over
(time horizon) years.". -/
def fallback_summary (city_name : String) (time_horizon : ℤ) : String :=
  "Policy simulation completed. Key changes observed in " ++ city_name ++ " over "
    ++ toString time_horizon ++ " years."

/-- The `policy_analysis` value after the fetch-if-absent step: the passed
value if truthy, else the fetch result (the empty dict on failure). -/
def resolvedPolicy (policy_analysis : Option PolicyAnalysis)
    (fetch_policy : Option PolicyAnalysis) : PolicyAnalysis :=
  policy_analysis.getD (fetch_policy.getD emptyPolicyAnalysis)

/-- The `city_data` value after the fetch-if-absent step: the passed value if
truthy, else `collect_city_data_sync(city=policy_analysis.get("target_city", "San Francisco"))`. -/
def resolvedCity (policy_analysis : Option PolicyAnalysis) (city_data : Option CityData)
    (fetch_policy : Option PolicyAnalysis) (fetch_city : String → CityData) : CityData :=
  city_data.getD
    (fetch_city ((resolvedPolicy policy_analysis fetch_policy).target_city.getD "San Francisco"))

/-- The initial `current_metrics` built from the `numbers` sub-dict of the
city data (an empty dict when the key is absent). -/
def initialMetrics (base : CityNumbers) : Metrics :=
  { population := base.population_number.getD 1000000
    housing_units := base.housing_number.getD 500000
    traffic_congestion := base.traffic_percentage.getD 30
    gdp_growth := base.gdp_percentage.getD (5/2)
    affordability_index := 65
    air_quality := 75
    public_satisfaction := 60 }

/-- The members of the `AgentType` enum in `thoughts_stream_agent.py`
(member name, member value).  There is no `SIMULATION_AGENT` member — the
simulation agent's tag is the member `SIMULATION`. -/
def AgentType_members : List (String × String) :=
  [("POLICY_ANALYSIS", "PolicyAnalysisAgent"),
   ("CITY_DATA", "CityDataAgent"),
   ("SIMULATION", "SimulationAgent"),
   ("MAP", "MapAgent"),
   ("MAPBOX_AGENT", "MapboxAgent"),
   ("CHAT", "ChatAgent"),
   ("PARSER", "ParserAgent"),
   ("DEBATE", "DebateAgent"),
   ("AGGREGATOR", "AggregatorAgent"),
   ("CONSULTING", "ConsultingAgent")]

/-- Python attribute access `AgentType.<name>`: the member's value, or an
`AttributeError` when the enum has no such member. -/
def agentTypeAttr (name : String) : Except String String :=
  match lookupKey name AgentType_members with
  | some v => Except.ok v
  | none => Except.error ("AttributeError: " ++ name)

/-- The ordered event sequence the BODY of `simulate_policy_impact_stream` is
written to yield — the stream as generated by the yields alone, leaving the
surrounding `emit_thought` thought-log calls (whose enum-member access
crashes) to `simulate_policy_impact_stream` below.  `fetch_policy` models the
`analyze_policy_document_sync` outcome (`none` = non-success, giving the
empty dict), `fetch_city` models `collect_city_data_sync`, `gen_summary`
models the Gemini summary call (`none` = exception, giving the templated
fallback sentence).  The fetched `map_visualization` is never read by the
stream and is omitted. -/
def simulate_policy_impact_stream_events (policy_analysis : Option PolicyAnalysis)
    (city_data : Option CityData) (fetch_policy : Option PolicyAnalysis)
    (fetch_city : String → CityData) (gen_summary : Option String)
    (p : SimParams) : List SimEvent :=
  let pa := resolvedPolicy policy_analysis fetch_policy
  let cd := resolvedCity policy_analysis city_data fetch_policy fetch_city
  let policy_intent := pa.policy_intent.getD "Policy implementation"
  let affected_areas := pa.affected_areas.getD []
  let city_name := cd.city.getD "Unknown City"
  let m0 := initialMetrics (cd.numbers.getD emptyCityNumbers)
  let s := steps_per_phase p.granularity
  let phasesOut := runPhases p s phases.enum m0
  let final_summary := gen_summary.getD (fallback_summary city_name p.time_horizon)
  SimEvent.simulation_start m0 policy_intent affected_areas p.simulation_type
      p.granularity p.time_horizon ::
    (phasesOut.2 ++
      [SimEvent.simulation_complete phasesOut.1 final_summary policy_intent
        affected_areas p.time_horizon 100])

/-- `simulate_policy_impact_stream`: the observable behaviour of pulling the
generator to exhaustion — the events it emits, paired with the error that
terminates the run, if any.  The first statement the body executes is the
`emit_thought` call whose `agent_type=AgentType.SIMULATION_AGENT` argument is
evaluated on the first `next()`, BEFORE the first yield; `AgentType` has no
member `SIMULATION_AGENT`, so that access raises `AttributeError` and the run
terminates with no events.  (Were the access to succeed, the two later
`emit_thought` sites — per phase and after the final yield — would access the
same attribute and also succeed, and the full event list would stream.) -/
def simulate_policy_impact_stream (policy_analysis : Option PolicyAnalysis)
    (city_data : Option CityData) (fetch_policy : Option PolicyAnalysis)
    (fetch_city : String → CityData) (gen_summary : Option String)
    (p : SimParams) : List SimEvent × Option String :=
  match agentTypeAttr "SIMULATION_AGENT" with
  | Except.error e => ([], some e)
  | Except.ok _ =>
      (simulate_policy_impact_stream_events policy_analysis city_data fetch_policy
        fetch_city gen_summary p, none)

/-- `run_simulation_stream`: the exposed entry point; passes `None` for all
three context arguments so that everything is fetched. -/
def run_simulation_stream (fetch_policy : Option PolicyAnalysis)
    (fetch_city : String → CityData) (gen_summary : Option String)
    (p : SimParams) : List SimEvent × Option String :=
  simulate_policy_impact_stream none none fetch_policy fetch_city gen_summary p

/-- The kind (and placement data) of an event, for stating the stream's shape. -/
inductive EventTag where
  | start
  | pstart (phase : String) (i : ℕ)
  | act (i step : ℕ)
  | pcomplete (phase : String) (i : ℕ)
  | complete
deriving DecidableEq, Repr

/-- Tag of an event. -/
def tagOf : SimEvent → EventTag
  | SimEvent.simulation_start _ _ _ _ _ _ => EventTag.start
  | SimEvent.phase_start ph i _ _ => EventTag.pstart ph i
  | SimEvent.agent_activity _ i st _ _ _ _ _ _ => EventTag.act i st
  | SimEvent.phase_complete ph i _ _ => EventTag.pcomplete ph i
  | SimEvent.simulation_complete _ _ _ _ _ _ => EventTag.complete

/-- The `progress` field carried by an event, if any. -/
def progressOf : SimEvent → Option ℚ
  | SimEvent.agent_activity _ _ _ _ _ _ _ _ pr => some pr
  | SimEvent.phase_complete _ _ _ pr => some pr
  | SimEvent.simulation_complete _ _ _ _ _ pr => some pr
  | _ => none

/-- The metrics snapshot carried by an event, if any. -/
def metricsOf : SimEvent → Option Metrics
  | SimEvent.simulation_start m _ _ _ _ _ => some m
  | SimEvent.agent_activity _ _ _ _ _ _ _ m _ => some m
  | SimEvent.phase_complete _ _ m _ => some m
  | SimEvent.simulation_complete m _ _ _ _ _ => some m
  | _ => none

/-- The tag sequence every run emits: one `simulation_start`, then per phase
(in the fixed order) one `phase_start`, `s` `agent_activity` events
(1-based steps), one `phase_complete`, and finally one `simulation_complete`. -/
def tagShape (s : ℕ) : List EventTag :=
  EventTag.start ::
    ((phases.enum.flatMap fun q =>
      EventTag.pstart q.2.name q.1 ::
        ((List.range s).map (fun j => EventTag.act q.1 (j + 1)) ++
          [EventTag.pcomplete q.2.name q.1])) ++
      [EventTag.complete])

/-- The progress sequence every run emits (events without a progress field
contribute nothing). -/
def progressShape (s : ℕ) : List ℚ :=
  (phases.enum.flatMap fun q =>
    (List.range s).map (fun j => activityProgress q.1 j s) ++
      [phaseCompleteProgress q.1]) ++ [100]

/-- `True` on `agent_activity` tags. -/
def isActTag : EventTag → Bool
  | EventTag.act _ _ => true
  | _ => false

/-- Pointwise non-negativity of a metrics vector. -/
def Metrics.Nonneg (m : Metrics) : Prop :=
  0 ≤ m.population ∧ 0 ≤ m.housing_units ∧ 0 ≤ m.traffic_congestion ∧
  0 ≤ m.gdp_growth ∧ 0 ≤ m.affordability_index ∧ 0 ≤ m.air_quality ∧
  0 ≤ m.public_satisfaction

instance (m : Metrics) : Decidable m.Nonneg := by
  unfold Metrics.Nonneg
  exact inferInstance

/-- Pointwise order on every metric except `traffic_congestion`. -/
def NonTrafficLE (a b : Metrics) : Prop :=
  a.population ≤ b.population ∧ a.housing_units ≤ b.housing_units ∧
  a.gdp_growth ≤ b.gdp_growth ∧ a.affordability_index ≤ b.affordability_index ∧
  a.air_quality ≤ b.air_quality ∧ a.public_satisfaction ≤ b.public_satisfaction

instance (a b : Metrics) : Decidable (NonTrafficLE a b) := by
  unfold NonTrafficLE
  exact inferInstance

/-- A fixed in-range randomness oracle for concrete runs. -/
def constRand : ℕ → StepRand :=
  fun _ => ⟨0, 0, 50, 1, 1, 100, 1, 1/10, 100, 2, 1, 1, 1⟩

/-- The `collect_city_data_sync` error-path result for a requested city `c`:
a dict with `status = "error"`, `city = c`, `report = None` and no `numbers`
key. -/
def cityFetchFailure : String → CityData := fun c => ⟨some c, none⟩

/-- 101 concrete thought events (distinct timestamps). -/
def ts101 : List Thought :=
  (List.range 101).map fun n => ⟨n, "SimulationAgent", "action", "msg", []⟩

/-- Three concrete thought events. -/
def thoughts3 : List Thought :=
  [⟨1, "PolicyAnalysisAgent", "action", "x", []⟩,
   ⟨2, "CityDataAgent", "observation", "y", []⟩,
   ⟨3, "SimulationAgent", "decision", "z", []⟩]

/-! # Theorems -/

/-! ## Helper lemmas on `takeLast` and the thought log -/

theorem takeLast_length_le {α : Type} (n : Nat) (l : List α) :
    (takeLast n l).length ≤ n := by
  simp only [takeLast, List.length_drop]
  omega

theorem takeLast_of_length_le {α : Type} (n : Nat) (l : List α)
    (h : l.length ≤ n) : takeLast n l = l := by
  simp only [takeLast]
  have : l.length - n = 0 := by omega
  simp [this]

theorem trimThoughts_eq_takeLast (l : List Thought) :
    trimThoughts l = takeLast max_thoughts l := by
  unfold trimThoughts takeLast
  split
  · rfl
  · next h =>
    have : l.length - max_thoughts = 0 := by omega
    simp [this]

theorem takeLast_takeLast_append {α : Type} (n : Nat) (a b : List α) :
    takeLast n (takeLast n a ++ b) = takeLast n (a ++ b) := by
  unfold takeLast
  rw [List.drop_append_eq_append_drop, List.drop_append_eq_append_drop,
    List.drop_drop]
  simp only [List.length_append, List.length_drop]
  congr 1
  all_goals congr 1
  all_goals omega

theorem recordAll_thoughts (ts : List Thought) :
    ∀ st : ThoughtsStreamManager, st.thoughts.length ≤ max_thoughts →
      (recordAll st ts).thoughts = takeLast max_thoughts (st.thoughts ++ ts) := by
  induction ts with
  | nil =>
    intro st h
    simp [recordAll, takeLast_of_length_le _ _ h]
  | cons t ts ih =>
    intro st h
    have hstep : (recordAll st (t :: ts)).thoughts
        = (recordAll ⟨trimThoughts (st.thoughts ++ [t]), st.subscribers⟩ ts).thoughts := by
      simp [recordAll, ThoughtsStreamManager.emit_thought]
    rw [hstep, ih _ (by rw [trimThoughts_eq_takeLast]; exact takeLast_length_le _ _)]
    simp only [trimThoughts_eq_takeLast]
    rw [takeLast_takeLast_append]
    simp

/-! ## Helper lemmas on the cache -/

theorem lookupKey_storeKey {β : Type} (key : String) (v : β) :
    ∀ c : List (String × β), lookupKey key (storeKey key v c) = some v := by
  intro c
  induction c with
  | nil => simp [lookupKey, storeKey]
  | cons p rest ih =>
    by_cases h : p.1 = key
    · simp [lookupKey, storeKey, h]
    · simp [lookupKey, storeKey, h, ih]

/-! ## Structural lemmas on the event stream -/

theorem runSteps_map_tagOf (p : SimParams) (pn : String) (i s : ℕ) :
    ∀ (js : List ℕ) (m : Metrics),
      ((runSteps p pn i s js m).2).map tagOf = js.map fun j => EventTag.act i (j + 1) := by
  intro js
  induction js with
  | nil => intro m; rfl
  | cons j js ih => intro m; simp [runSteps, tagOf, ih]

theorem runPhases_map_tagOf (p : SimParams) (s : ℕ) :
    ∀ (ips : List (ℕ × PhaseInfo)) (m : Metrics),
      ((runPhases p s ips m).2).map tagOf
        = ips.flatMap fun q =>
            EventTag.pstart q.2.name q.1 ::
              ((List.range s).map (fun j => EventTag.act q.1 (j + 1)) ++
                [EventTag.pcomplete q.2.name q.1]) := by
  intro ips
  induction ips with
  | nil => intro m; rfl
  | cons q rest ih =>
    intro m
    obtain ⟨i, ph⟩ := q
    simp [runPhases, tagOf, runSteps_map_tagOf, ih]

theorem simulate_map_tagOf (policy_analysis : Option PolicyAnalysis)
    (city_data : Option CityData) (fetch_policy : Option PolicyAnalysis)
    (fetch_city : String → CityData) (gen_summary : Option String) (p : SimParams) :
    (simulate_policy_impact_stream_events policy_analysis city_data fetch_policy fetch_city
        gen_summary p).map tagOf
      = tagShape (steps_per_phase p.granularity) := by
  simp [simulate_policy_impact_stream_events, tagShape, tagOf, runPhases_map_tagOf]

theorem runSteps_filterMap_progress (p : SimParams) (pn : String) (i s : ℕ) :
    ∀ (js : List ℕ) (m : Metrics),
      ((runSteps p pn i s js m).2).filterMap progressOf
        = js.map fun j => activityProgress i j s := by
  intro js
  induction js with
  | nil => intro m; rfl
  | cons j js ih => intro m; simp [runSteps, progressOf, ih]

theorem runPhases_filterMap_progress (p : SimParams) (s : ℕ) :
    ∀ (ips : List (ℕ × PhaseInfo)) (m : Metrics),
      ((runPhases p s ips m).2).filterMap progressOf
        = ips.flatMap fun q =>
            (List.range s).map (fun j => activityProgress q.1 j s) ++
              [phaseCompleteProgress q.1] := by
  intro ips
  induction ips with
  | nil => intro m; rfl
  | cons q rest ih =>
    intro m
    obtain ⟨i, ph⟩ := q
    simp [runPhases, progressOf, runSteps_filterMap_progress, ih]

theorem simulate_filterMap_progress (policy_analysis : Option PolicyAnalysis)
    (city_data : Option CityData) (fetch_policy : Option PolicyAnalysis)
    (fetch_city : String → CityData) (gen_summary : Option String) (p : SimParams) :
    (simulate_policy_impact_stream_events policy_analysis city_data fetch_policy fetch_city
        gen_summary p).filterMap progressOf
      = progressShape (steps_per_phase p.granularity) := by
  simp [simulate_policy_impact_stream_events, progressShape, progressOf,
    runPhases_filterMap_progress]

theorem simulate_run_raises (policy_analysis : Option PolicyAnalysis)
    (city_data : Option CityData) (fetch_policy : Option PolicyAnalysis)
    (fetch_city : String → CityData) (gen_summary : Option String) (p : SimParams) :
    simulate_policy_impact_stream policy_analysis city_data fetch_policy fetch_city
      gen_summary p = ([], some "AttributeError: SIMULATION_AGENT") := rfl

/-! ## Metrics invariants -/

theorem pytrunc_nonneg (q : ℚ) (h : 0 ≤ q) : 0 ≤ pytrunc q := by
  unfold pytrunc
  rw [if_pos h]
  exact Int.floor_nonneg.mpr h

theorem change_multiplier_nonneg (g : String) : 0 ≤ change_multiplier g := by
  unfold change_multiplier
  split <;> norm_num

theorem le_max_zero_add_int (x k : ℤ) (hk : 0 ≤ k) : x ≤ max 0 (x + k) :=
  le_trans (by omega) (le_max_right 0 (x + k))

theorem le_max_zero_add_rat (x k : ℚ) (hk : 0 ≤ k) : x ≤ max 0 (x + k) :=
  le_trans (by linarith) (le_max_right 0 (x + k))

theorem applyAgentChanges_nonneg (name : String) (mult : ℚ) (r : StepRand)
    (m : Metrics) (hm : m.Nonneg) : (applyAgentChanges name mult r m).Nonneg := by
  obtain ⟨h1, h2, h3, h4, h5, h6, h7⟩ := hm
  unfold applyAgentChanges
  split_ifs <;>
    exact ⟨by first | assumption | exact le_max_left 0 _,
      by first | assumption | exact le_max_left 0 _,
      by first | assumption | exact le_max_left 0 _,
      by first | assumption | exact le_max_left 0 _,
      by first | assumption | exact le_max_left 0 _,
      by first | assumption | exact le_max_left 0 _,
      by first | assumption | exact le_max_left 0 _⟩

theorem nonTrafficLE_refl (m : Metrics) : NonTrafficLE m m :=
  ⟨le_refl _, le_refl _, le_refl _, le_refl _, le_refl _, le_refl _⟩

theorem applyAgentChanges_mono (name : String) (mult : ℚ) (r : StepRand) (m : Metrics)
    (hr : r.InRange) (hmult : 0 ≤ mult) :
    NonTrafficLE m (applyAgentChanges name mult r m) := by
  obtain ⟨hup, _, hte, _, htes, _, hhd, _, hha, _, hgd, _, hpop, _, hcls, _, hcla, _,
    hair, _, hess, _⟩ := hr
  have hq : ∀ z : ℤ, 0 ≤ z → (0 : ℚ) ≤ (z : ℚ) * mult := fun z hz =>
    mul_nonneg (by exact_mod_cast hz) hmult
  unfold applyAgentChanges
  split_ifs
  · exact ⟨le_refl _, le_max_zero_add_int _ _ (pytrunc_nonneg _ (hq _ (by linarith))),
      le_max_zero_add_rat _ _ (mul_nonneg (by norm_num) hmult), le_refl _, le_refl _, le_refl _⟩
  · exact ⟨le_refl _, le_refl _, le_refl _, le_refl _, le_refl _,
      le_max_zero_add_int _ _ (pytrunc_nonneg _ (hq _ (by linarith)))⟩
  · exact ⟨le_refl _, le_max_zero_add_int _ _ (pytrunc_nonneg _ (hq _ (by linarith))),
      le_refl _, le_max_zero_add_int _ _ (pytrunc_nonneg _ (hq _ (by linarith))),
      le_refl _, le_refl _⟩
  · exact ⟨le_max_zero_add_int _ _ (pytrunc_nonneg _ (hq _ (by linarith))), le_refl _,
      le_max_zero_add_rat _ _ (mul_nonneg (by linarith) hmult), le_refl _, le_refl _, le_refl _⟩
  · exact ⟨le_refl _, le_refl _, le_refl _,
      le_max_zero_add_int _ _ (pytrunc_nonneg _ (hq _ (by linarith))), le_refl _,
      le_max_zero_add_int _ _ (pytrunc_nonneg _ (hq _ (by linarith)))⟩
  · exact ⟨le_refl _, le_refl _, le_refl _, le_refl _,
      le_max_zero_add_int _ _ (pytrunc_nonneg _ (hq _ (by linarith))),
      le_max_zero_add_int _ _ (pytrunc_nonneg _ (hq _ (by linarith)))⟩
  · exact nonTrafficLE_refl m

theorem runSteps_nonneg (p : SimParams) (pn : String) (i s : ℕ) :
    ∀ (js : List ℕ) (m : Metrics), m.Nonneg →
      (∀ x ∈ ((runSteps p pn i s js m).2).filterMap metricsOf, x.Nonneg) ∧
        (runSteps p pn i s js m).1.Nonneg := by
  intro js
  induction js with
  | nil => intro m hm; exact ⟨by simp [runSteps], hm⟩
  | cons j js ih =>
    intro m hm
    have hm' := applyAgentChanges_nonneg
      (agents.getD (p.rand (i * s + j)).agentIdx.val ⟨"", "", ""⟩).name
      (change_multiplier p.granularity) (p.rand (i * s + j)) m hm
    have := ih _ hm'
    constructor
    · intro x hx
      simp only [runSteps, List.filterMap_cons, metricsOf] at hx
      rcases List.mem_cons.mp hx with h | h
      · exact h ▸ hm'
      · exact this.1 x h
    · exact this.2

theorem runPhases_nonneg (p : SimParams) (s : ℕ) :
    ∀ (ips : List (ℕ × PhaseInfo)) (m : Metrics), m.Nonneg →
      (∀ x ∈ ((runPhases p s ips m).2).filterMap metricsOf, x.Nonneg) ∧
        (runPhases p s ips m).1.Nonneg := by
  intro ips
  induction ips with
  | nil => intro m hm; exact ⟨by simp [runPhases], hm⟩
  | cons q rest ih =>
    intro m hm
    obtain ⟨i, ph⟩ := q
    have hsteps := runSteps_nonneg p ph.name i s (List.range s) m hm
    have hrest := ih _ hsteps.2
    constructor
    · intro x hx
      simp only [runPhases, List.filterMap_cons, metricsOf, List.filterMap_append] at hx
      rcases List.mem_append.mp hx with h | h
      · exact hsteps.1 x h
      · rcases List.mem_cons.mp h with h' | h'
        · exact h' ▸ hsteps.2
        · exact hrest.1 x h'
    · exact hrest.2

theorem runSteps_chain (p : SimParams) (pn : String) (i s : ℕ)
    (hrand : ∀ n, (p.rand n).InRange) :
    ∀ (js : List ℕ) (m : Metrics),
      List.Chain' NonTrafficLE (m :: ((runSteps p pn i s js m).2).filterMap metricsOf) ∧
        (m :: ((runSteps p pn i s js m).2).filterMap metricsOf).getLast?
          = some (runSteps p pn i s js m).1 := by
  intro js
  induction js with
  | nil => intro m; exact ⟨List.chain'_singleton m, rfl⟩
  | cons j js ih =>
    intro m
    have hmono := applyAgentChanges_mono
      (agents.getD (p.rand (i * s + j)).agentIdx.val ⟨"", "", ""⟩).name
      (change_multiplier p.granularity) (p.rand (i * s + j)) m
      (hrand (i * s + j)) (change_multiplier_nonneg p.granularity)
    have := ih (applyAgentChanges
      (agents.getD (p.rand (i * s + j)).agentIdx.val ⟨"", "", ""⟩).name
      (change_multiplier p.granularity) (p.rand (i * s + j)) m)
    constructor
    · simp only [runSteps, List.filterMap_cons, metricsOf]
      exact List.Chain'.cons hmono this.1
    · simp only [runSteps, List.filterMap_cons, metricsOf]
      rw [List.getLast?_cons_cons]
      exact this.2

theorem runPhases_chain (p : SimParams) (s : ℕ)
    (hrand : ∀ n, (p.rand n).InRange) :
    ∀ (ips : List (ℕ × PhaseInfo)) (m : Metrics),
      List.Chain' NonTrafficLE (m :: ((runPhases p s ips m).2).filterMap metricsOf) ∧
        (m :: ((runPhases p s ips m).2).filterMap metricsOf).getLast?
          = some (runPhases p s ips m).1 := by
  intro ips
  induction ips with
  | nil => intro m; exact ⟨List.chain'_singleton m, rfl⟩
  | cons q rest ih =>
    intro m
    obtain ⟨i, ph⟩ := q
    have hsteps := runSteps_chain p ph.name i s hrand (List.range s) m
    have hrest := ih (runSteps p ph.name i s (List.range s) m).1
    have hsplit :
        m :: ((runPhases p s ((i, ph) :: rest) m).2).filterMap metricsOf
          = (m :: ((runSteps p ph.name i s (List.range s) m).2).filterMap metricsOf) ++
            ((runSteps p ph.name i s (List.range s) m).1 ::
              ((runPhases p s rest (runSteps p ph.name i s (List.range s) m).1).2).filterMap
                metricsOf) := by
      simp [runPhases, metricsOf, List.filterMap_append]
    constructor
    · rw [hsplit]
      refine List.Chain'.append hsteps.1 hrest.1 ?_
      intro x hx y hy
      rw [hsteps.2] at hx
      simp only [Option.mem_def, Option.some_inj] at hx
      simp only [List.head?_cons, Option.mem_def, Option.some_inj] at hy
      rw [← hx, ← hy]
      exact nonTrafficLE_refl _
    · rw [hsplit, List.getLast?_append_cons]
      exact hrest.2

/-! ## Claim C7: FIFO retention of the thought log -/

/-- C7: after more than 100 record calls on a fresh Thought Log, the log
retains exactly the most recent 100 events (the oldest evicted first), so
`recent(1000)` afterwards returns exactly those most recent 100 events in
chronological order and none of the older ones. -/
theorem C7_fifo_retention (subs : List (Thought → Except String Unit))
    (ts : List Thought) (h : 100 < ts.length) :
    (recordAll ⟨[], subs⟩ ts).get_recent_thoughts 1000 = ts.drop (ts.length - 100) ∧
      (recordAll ⟨[], subs⟩ ts).thoughts.length = 100 := by
  have hbuf : (recordAll ⟨[], subs⟩ ts).thoughts = ts.drop (ts.length - 100) := by
    rw [recordAll_thoughts ts ⟨[], subs⟩ (by simp)]
    simp [takeLast, max_thoughts]
  have hlen : (recordAll ⟨[], subs⟩ ts).thoughts.length = 100 := by
    rw [hbuf]
    simp only [List.length_drop]
    omega
  refine ⟨?_, hlen⟩
  unfold ThoughtsStreamManager.get_recent_thoughts
  rw [if_neg (by omega), hlen]
  simpa using hbuf

/-- Witness for C7 at 101 concrete record calls. -/
theorem C7_fifo_retention_witness :
    100 < ts101.length ∧
      ((recordAll ⟨[], []⟩ ts101).get_recent_thoughts 1000
          = ts101.drop (ts101.length - 100) ∧
        (recordAll ⟨[], []⟩ ts101).thoughts.length = 100) :=
  ⟨by decide, C7_fifo_retention [] ts101 (by decide)⟩

/-! ## Claim C8: observer notification on record -/

theorem notifySubscribers_ok (t : Thought) :
    ∀ fs : List (Thought → Except String Unit),
      (∀ f ∈ fs, f t = Except.ok ()) → notifySubscribers fs t = Except.ok () := by
  intro fs
  induction fs with
  | nil => intro _; rfl
  | cons f fs ih =>
    intro h
    simp only [notifySubscribers, h f (by simp)]
    exact ih fun g hg => h g (by simp [hg])

theorem notifySubscribers_error (t : Thought) (e : String) :
    ∀ fs : List (Thought → Except String Unit),
      notifySubscribers fs t = Except.error e → ∃ f ∈ fs, f t = Except.error e := by
  intro fs
  induction fs with
  | nil => intro h; simp [notifySubscribers] at h
  | cons f fs ih =>
    intro h
    simp only [notifySubscribers] at h
    cases hf : f t with
    | ok u => rw [hf] at h; obtain ⟨g, hg, hge⟩ := ih h; exact ⟨g, by simp [hg], hge⟩
    | error e' =>
      rw [hf] at h
      cases h
      exact ⟨f, by simp, hf⟩

/-- C8 counterexample: with one registered observer that raises, `record`
propagates the observer's error to its caller instead of returning the
recorded event (the claim says the error must not propagate and `record`
always returns the event). -/
theorem C8_counterexample :
    ((ThoughtsStreamManager.mk [] [fun _ => Except.error "boom"]).emit_thought 0
        "SimulationAgent" "action" "hello" []).2 = Except.error "boom" ∧
      ((ThoughtsStreamManager.mk [] [fun _ => Except.error "boom"]).emit_thought 0
          "SimulationAgent" "action" "hello" []).1.thoughts
        = [⟨0, "SimulationAgent", "action", "hello", []⟩] :=
  ⟨rfl, rfl⟩

theorem getLast?_takeLast_concat {α : Type} (n : Nat) (hn : 0 < n) (l : List α) (t : α) :
    (takeLast n (l ++ [t])).getLast? = some t := by
  unfold takeLast
  rw [List.drop_append_eq_append_drop]
  have h0 : (l ++ [t]).length - n - l.length = 0 := by
    simp only [List.length_append, List.length_singleton]
    omega
  rw [h0]
  simp [List.getLast?_concat]

/-- C8 amended: observers are notified synchronously in registration order,
stopping at the first raising observer; the event is appended to the buffer
before the observers run, so a raising observer does not prevent the event
from being recorded — but the observer's error DOES propagate to the caller
of `record`, which then does not return the recorded event. -/
theorem C8_amended_observer_failure (st : ThoughtsStreamManager) (now : Nat)
    (agent ttype message : String) (metadata : List (String × String)) (t : Thought)
    (ht : t = ⟨now, agent, ttype, message, metadata⟩) :
    ((st.emit_thought now agent ttype message metadata).1.thoughts.getLast? = some t) ∧
      ((∀ f ∈ st.subscribers, f t = Except.ok ()) →
        (st.emit_thought now agent ttype message metadata).2 = Except.ok t) ∧
      (∀ e, (st.emit_thought now agent ttype message metadata).2 = Except.error e →
        ∃ f ∈ st.subscribers, f t = Except.error e) ∧
      (∀ f fs e, st.subscribers = f :: fs → f t = Except.error e →
        (st.emit_thought now agent ttype message metadata).2 = Except.error e) := by
  subst ht
  refine ⟨?_, ?_, ?_, ?_⟩
  · show (trimThoughts (st.thoughts ++ [_])).getLast? = _
    rw [trimThoughts_eq_takeLast]
    exact getLast?_takeLast_concat max_thoughts (by norm_num [max_thoughts]) _ _
  · intro h
    show (notifySubscribers st.subscribers _).map _ = _
    rw [notifySubscribers_ok _ st.subscribers h]
    rfl
  · intro e he
    apply notifySubscribers_error _ e st.subscribers
    revert he
    show (notifySubscribers st.subscribers _).map _ = _ → _
    cases hn : notifySubscribers st.subscribers _ with
    | ok u => simp [Except.map]
    | error e' => simp [Except.map]
  · intro f fs e hsubs hf
    show (notifySubscribers st.subscribers _).map _ = _
    rw [hsubs]
    simp only [notifySubscribers, hf]
    rfl

/-- Witness for C8 amended at a concrete state with two observers, the first
of which raises. -/
theorem C8_amended_observer_failure_witness :
    ((ThoughtsStreamManager.mk []
          [fun _ => Except.error "down", fun _ => Except.ok ()]).emit_thought 3
        "MapAgent" "error" "m" []).1.thoughts.getLast?
        = some ⟨3, "MapAgent", "error", "m", []⟩ ∧
      ((ThoughtsStreamManager.mk []
            [fun _ => Except.error "down", fun _ => Except.ok ()]).emit_thought 3
          "MapAgent" "error" "m" []).2 = Except.error "down" := by
  have h := C8_amended_observer_failure
    (ThoughtsStreamManager.mk [] [fun _ => Except.error "down", fun _ => Except.ok ()])
    3 "MapAgent" "error" "m" [] ⟨3, "MapAgent", "error", "m", []⟩ rfl
  exact ⟨h.1, h.2.2.2 (fun _ => Except.error "down") [fun _ => Except.ok ()] "down" rfl rfl⟩

/-! ## Claim C10: `recent` windowing -/

/-- C10: `recent(0)` returns the entire buffer (Python slice `[-0:]`), not the
empty list; for every `limit ≥ 1` it returns the final `min limit size`
events of the buffer in chronological order. -/
theorem C10_recent_windowing (st : ThoughtsStreamManager) :
    st.get_recent_thoughts 0 = st.thoughts ∧
      ∀ limit : Nat, 1 ≤ limit →
        st.thoughts.take (st.thoughts.length - limit) ++ st.get_recent_thoughts limit
            = st.thoughts ∧
          (st.get_recent_thoughts limit).length = min limit st.thoughts.length := by
  refine ⟨rfl, ?_⟩
  intro limit hl
  unfold ThoughtsStreamManager.get_recent_thoughts
  rw [if_neg (by omega)]
  refine ⟨List.take_append_drop _ _, ?_⟩
  simp only [List.length_drop]
  omega

/-- Witness for C10 at a three-event buffer and `limit = 2`. -/
theorem C10_recent_windowing_witness :
    (ThoughtsStreamManager.mk thoughts3 []).get_recent_thoughts 0 = thoughts3 ∧
      (1 ≤ 2 ∧
        thoughts3.take (thoughts3.length - 2) ++
            (ThoughtsStreamManager.mk thoughts3 []).get_recent_thoughts 2 = thoughts3 ∧
          ((ThoughtsStreamManager.mk thoughts3 []).get_recent_thoughts 2).length
            = min 2 thoughts3.length) :=
  ⟨(C10_recent_windowing ⟨thoughts3, []⟩).1, by decide,
    (C10_recent_windowing ⟨thoughts3, []⟩).2 2 (by decide)⟩

/-! ## Claim C6: cache round trip and invalidation -/

/-- C6 counterexample: after storing city data, changing a document's
modification time (which changes the fingerprint and hence the key) makes the
next `get` report a miss — but the stale entry is NOT evicted as a side
effect: the store still holds it under the old key. -/
theorem C6_counterexample :
    (get_cached_city_data "San Francisco" [("plan.pdf", 2)] 1
        (cache_city_data "San Francisco" (42 : ℕ) [("plan.pdf", 1)] 0 [])).1 = none ∧
      (get_cached_city_data "San Francisco" [("plan.pdf", 2)] 1
          (cache_city_data "San Francisco" (42 : ℕ) [("plan.pdf", 1)] 0 [])).2
        = cache_city_data "San Francisco" (42 : ℕ) [("plan.pdf", 1)] 0 [] ∧
      cache_city_data "San Francisco" (42 : ℕ) [("plan.pdf", 1)] 0 [] ≠ [] := by
  refine ⟨?_, ?_, ?_⟩ <;> decide

theorem policy_key_congr {files files' : List (String × Nat)}
    (h : get_cache_key_for_policy_analysis files = get_cache_key_for_policy_analysis files') :
    get_document_hash files = get_document_hash files' := by
  have hd := congrArg String.data h
  unfold get_cache_key_for_policy_analysis at hd
  rw [String.data_append, String.data_append] at hd
  exact String.ext (List.append_cancel_left hd)

theorem city_key_congr (city : String) {files files' : List (String × Nat)}
    (h : get_cache_key_for_city_data city files = get_cache_key_for_city_data city files') :
    get_document_hash files = get_document_hash files' := by
  have hd := congrArg String.data h
  unfold get_cache_key_for_city_data at hd
  rw [String.data_append, String.data_append, String.data_append,
    String.data_append] at hd
  exact String.ext (List.append_cancel_left hd)

/-- C6 amended: for every cache kind, `put` followed immediately by `get` with
unchanged inputs returns the exact value stored; a city-data `get` returns the
value only if the entry exists under the recomputed key and its age is under
24 hours, and `get` evicts an entry found under the key when it has expired;
but when a fingerprint-participating input changes, the key itself changes, so
the next `get` reports a miss while the stale entry is left in the store
un-evicted (eviction only happens for an entry found under the looked-up
key). -/
theorem C6_amended_cache_behavior {α : Type} (a : α) (files files' : List (String × Nat))
    (city policy_str : String) (now later : ℚ)
    (cpol : List (String × PolicyCacheEntry α)) (ccity : List (String × CityCacheEntry α))
    (cmap : List (String × MapCacheEntry α)) :
    (get_cached_policy_analysis files (cache_policy_analysis a files now cpol)).1 = some a ∧
      (later - now < 24 →
        get_cached_city_data city files later (cache_city_data city a files now ccity)
          = (some a, cache_city_data city a files now ccity)) ∧
      (get_cached_map_visualization policy_str
          (cache_map_visualization policy_str a now cmap)).1 = some a ∧
      (∀ b : α, (get_cached_city_data city files later ccity).1 = some b →
        ∃ e, lookupKey (get_cache_key_for_city_data city files) ccity = some e ∧
          e.data = b ∧ later - e.cached_at < 24) ∧
      (24 ≤ later - now →
        get_cached_city_data city files later (cache_city_data city a files now [])
          = (none, [])) ∧
      (get_document_hash files ≠ get_document_hash files' →
        get_cached_city_data city files' later (cache_city_data city a files now [])
            = (none, cache_city_data city a files now []) ∧
          get_cached_policy_analysis files' (cache_policy_analysis a files now [])
            = (none, cache_policy_analysis a files now [])) := by
  refine ⟨?_, ?_, ?_, ?_, ?_, ?_⟩
  · simp [get_cached_policy_analysis, cache_policy_analysis, lookupKey_storeKey]
  · intro hfresh
    simp [get_cached_city_data, cache_city_data, lookupKey_storeKey, hfresh]
  · simp [get_cached_map_visualization, cache_map_visualization, lookupKey_storeKey]
  · intro b hb
    unfold get_cached_city_data at hb
    dsimp only at hb
    rcases hlook : lookupKey (get_cache_key_for_city_data city files) ccity with _ | e
    · rw [hlook] at hb
      simp at hb
    · rw [hlook] at hb
      dsimp only at hb
      by_cases hage : later - e.cached_at < 24
      · rw [if_pos hage] at hb
        simp only [Option.some_inj] at hb
        exact ⟨e, rfl, hb, hage⟩
      · rw [if_neg hage] at hb
        simp at hb
  · intro hold
    simp [get_cached_city_data, cache_city_data, storeKey, lookupKey,
      not_lt.mpr hold, eraseKey]
  · intro hchanged
    have hck : ¬(get_cache_key_for_city_data city files
        = get_cache_key_for_city_data city files') :=
      fun he => hchanged (city_key_congr city he)
    have hpk : ¬(get_cache_key_for_policy_analysis files
        = get_cache_key_for_policy_analysis files') :=
      fun he => hchanged (policy_key_congr he)
    constructor
    · simp [get_cached_city_data, cache_city_data, storeKey, lookupKey, hck]
    · simp [get_cached_policy_analysis, cache_policy_analysis, storeKey, lookupKey, hpk]

/-- Witness for C6 amended: a concrete payload, document set, and clock, with
the fresh and expired clauses each applied at a fitting clock value. -/
theorem C6_amended_cache_behavior_witness :
    ((get_cached_policy_analysis [("plan.pdf", 1)]
        (cache_policy_analysis (42 : ℕ) [("plan.pdf", 1)] 0 [])).1 = some 42 ∧
      ((1 : ℚ) - 0 < 24 ∧
        get_cached_city_data "San Francisco" [("plan.pdf", 1)] 1
            (cache_city_data "San Francisco" (42 : ℕ) [("plan.pdf", 1)] 0 [])
          = (some 42, cache_city_data "San Francisco" (42 : ℕ) [("plan.pdf", 1)] 0 []))) ∧
      ((24 : ℚ) ≤ 25 - 0 ∧
        get_cached_city_data "San Francisco" [("plan.pdf", 1)] 25
            (cache_city_data "San Francisco" (42 : ℕ) [("plan.pdf", 1)] 0 [])
          = (none, [])) ∧
      (get_document_hash [("plan.pdf", 1)] ≠ get_document_hash [("plan.pdf", 2)] ∧
        get_cached_city_data "San Francisco" [("plan.pdf", 2)] 1
            (cache_city_data "San Francisco" (42 : ℕ) [("plan.pdf", 1)] 0 [])
          = (none, cache_city_data "San Francisco" (42 : ℕ) [("plan.pdf", 1)] 0 [])) :=
  ⟨⟨(C6_amended_cache_behavior (42 : ℕ) [("plan.pdf", 1)] [("plan.pdf", 2)]
        "San Francisco" "ps" 0 1 [] [] []).1,
      by norm_num,
      (C6_amended_cache_behavior (42 : ℕ) [("plan.pdf", 1)] [("plan.pdf", 2)]
        "San Francisco" "ps" 0 1 [] [] []).2.1 (by norm_num)⟩,
    ⟨by norm_num,
      (C6_amended_cache_behavior (42 : ℕ) [("plan.pdf", 1)] [("plan.pdf", 2)]
        "San Francisco" "ps" 0 25 [] [] []).2.2.2.2.1 (by norm_num)⟩,
    ⟨by decide,
      ((C6_amended_cache_behavior (42 : ℕ) [("plan.pdf", 1)] [("plan.pdf", 2)]
        "San Francisco" "ps" 0 1 [] [] []).2.2.2.2.2 (by decide)).1⟩⟩

/-! ## Claim C2: event-sequence shape -/

/-- C2 (code bug): the claimed event sequence — one `simulation_start`, then
for each of the 8 phases in the fixed order one `phase_start` and one
`phase_complete` with `steps_per_phase` `agent_activity` events in between
(5 for Micro, 3 for Macro; 40 resp. 24 in total), then one
`simulation_complete` — is exactly what the generator body is written to
yield; but no run ever emits it: every run raises `AttributeError`
(`AgentType.SIMULATION_AGENT` is not an enum member) before the first yield,
so the actual emitted sequence is empty. -/
theorem C2_event_sequence_shape (policy_analysis : Option PolicyAnalysis)
    (city_data : Option CityData) (fetch_policy : Option PolicyAnalysis)
    (fetch_city : String → CityData) (gen_summary : Option String) (p : SimParams)
    (h : p.granularity = "Micro" ∨ p.granularity = "Macro") :
    simulate_policy_impact_stream policy_analysis city_data fetch_policy fetch_city
        gen_summary p = ([], some "AttributeError: SIMULATION_AGENT") ∧
      (simulate_policy_impact_stream_events policy_analysis city_data fetch_policy fetch_city
        gen_summary p).map tagOf = tagShape (steps_per_phase p.granularity) ∧
      steps_per_phase "Micro" = 5 ∧ steps_per_phase "Macro" = 3 ∧
      (p.granularity = "Micro" →
        ((simulate_policy_impact_stream_events policy_analysis city_data fetch_policy fetch_city
          gen_summary p).map tagOf).countP isActTag = 40) ∧
      (p.granularity = "Macro" →
        ((simulate_policy_impact_stream_events policy_analysis city_data fetch_policy fetch_city
          gen_summary p).map tagOf).countP isActTag = 24) := by
  have hv : p.granularity = "Micro" ∨ p.granularity = "Macro" := h
  refine ⟨simulate_run_raises _ _ _ _ _ _, simulate_map_tagOf _ _ _ _ _ _,
    by decide, by decide, ?_, ?_⟩
  · intro hg
    rw [simulate_map_tagOf, hg]
    decide
  · intro hg
    rw [simulate_map_tagOf, hg]
    decide

/-- Witness for C2 at a concrete Micro run. -/
theorem C2_event_sequence_shape_witness :
    simulate_policy_impact_stream none none none cityFetchFailure none
        ⟨"Urban Traffic", "Micro", 10, constRand⟩
        = ([], some "AttributeError: SIMULATION_AGENT") ∧
      (simulate_policy_impact_stream_events none none none cityFetchFailure none
        ⟨"Urban Traffic", "Micro", 10, constRand⟩).map tagOf
        = tagShape (steps_per_phase "Micro") ∧
      steps_per_phase "Micro" = 5 ∧ steps_per_phase "Macro" = 3 ∧
      ("Micro" = "Micro" →
        ((simulate_policy_impact_stream_events none none none cityFetchFailure none
          ⟨"Urban Traffic", "Micro", 10, constRand⟩).map tagOf).countP isActTag = 40) ∧
      ("Micro" = "Macro" →
        ((simulate_policy_impact_stream_events none none none cityFetchFailure none
          ⟨"Urban Traffic", "Micro", 10, constRand⟩).map tagOf).countP isActTag = 24) :=
  C2_event_sequence_shape none none none cityFetchFailure none
    ⟨"Urban Traffic", "Micro", 10, constRand⟩ (Or.inl rfl)

/-! ## Claim C3: progress invariants -/

theorem phases_enum_expand :
    phases.enum = [(0, ⟨"Initialization", 2, "Setting up simulation environment"⟩),
      (1, ⟨"Policy Analysis", 3, "Analyzing policy implications"⟩),
      (2, ⟨"Infrastructure Planning", 4, "Planning infrastructure changes"⟩),
      (3, ⟨"Housing Development", 5, "Simulating housing construction"⟩),
      (4, ⟨"Transportation Impact", 4, "Analyzing traffic and transit changes"⟩),
      (5, ⟨"Economic Effects", 3, "Calculating economic impact"⟩),
      (6, ⟨"Community Impact", 3, "Assessing community effects"⟩),
      (7, ⟨"Final Assessment", 2, "Compiling final results"⟩)] := rfl

theorem phases_length : phases.length = 8 := rfl

/-- C3 (code bug): the progress values the generator body is written to emit
all lie in [0, 100], are non-decreasing over the sequence, and the sequence
ends with the final agent_activity / phase_complete / simulation_complete
events each carrying progress 100 — but the code never emits any of them:
every run raises `AttributeError` (`AgentType.SIMULATION_AGENT` is not an
enum member) before the first yield. -/
theorem C3_progress_invariants (policy_analysis : Option PolicyAnalysis)
    (city_data : Option CityData) (fetch_policy : Option PolicyAnalysis)
    (fetch_city : String → CityData) (gen_summary : Option String) (p : SimParams)
    (h : p.granularity = "Micro" ∨ p.granularity = "Macro") :
    simulate_policy_impact_stream policy_analysis city_data fetch_policy fetch_city
        gen_summary p = ([], some "AttributeError: SIMULATION_AGENT") ∧
    (∀ x ∈ (simulate_policy_impact_stream_events policy_analysis city_data fetch_policy
        fetch_city gen_summary p).filterMap progressOf, 0 ≤ x ∧ x ≤ 100) ∧
      List.Chain' (· ≤ ·) ((simulate_policy_impact_stream_events policy_analysis city_data
        fetch_policy fetch_city gen_summary p).filterMap progressOf) ∧
      (((simulate_policy_impact_stream_events policy_analysis city_data fetch_policy
          fetch_city gen_summary p).map tagOf).drop
            (((simulate_policy_impact_stream_events policy_analysis city_data fetch_policy
              fetch_city gen_summary p).map tagOf).length - 3)
        = [EventTag.act 7 (steps_per_phase p.granularity),
            EventTag.pcomplete "Final Assessment" 7, EventTag.complete]) ∧
      (((simulate_policy_impact_stream_events policy_analysis city_data fetch_policy
          fetch_city gen_summary p).filterMap progressOf).drop
            (((simulate_policy_impact_stream_events policy_analysis city_data fetch_policy
              fetch_city gen_summary p).filterMap progressOf).length - 3)
        = [100, 100, 100]) := by
  refine ⟨simulate_run_raises _ _ _ _ _ _, ?_⟩
  rw [simulate_filterMap_progress, simulate_map_tagOf]
  rcases h with hg | hg
  · rw [hg, show steps_per_phase "Micro" = 5 from by decide]
    refine ⟨?_, ?_, by decide, ?_⟩ <;>
      norm_num [progressShape, phases_enum_expand, List.range_succ,
        activityProgress, phaseCompleteProgress, phases_length,
        List.chain'_cons, List.chain'_singleton, List.forall_mem_cons]
  · rw [hg, show steps_per_phase "Macro" = 3 from by decide]
    refine ⟨?_, ?_, by decide, ?_⟩ <;>
      norm_num [progressShape, phases_enum_expand, List.range_succ,
        activityProgress, phaseCompleteProgress, phases_length,
        List.chain'_cons, List.chain'_singleton, List.forall_mem_cons]

/-- Witness for C3 at a concrete Micro run. -/
theorem C3_progress_invariants_witness :
    simulate_policy_impact_stream none none none cityFetchFailure none
        ⟨"Urban Traffic", "Micro", 10, constRand⟩
        = ([], some "AttributeError: SIMULATION_AGENT") ∧
    (∀ x ∈ (simulate_policy_impact_stream_events none none none cityFetchFailure none
        ⟨"Urban Traffic", "Micro", 10, constRand⟩).filterMap progressOf,
          0 ≤ x ∧ x ≤ 100) ∧
      List.Chain' (· ≤ ·) ((simulate_policy_impact_stream_events none none none
        cityFetchFailure none
        ⟨"Urban Traffic", "Micro", 10, constRand⟩).filterMap progressOf) ∧
      (((simulate_policy_impact_stream_events none none none cityFetchFailure none
          ⟨"Urban Traffic", "Micro", 10, constRand⟩).map tagOf).drop
            (((simulate_policy_impact_stream_events none none none cityFetchFailure none
              ⟨"Urban Traffic", "Micro", 10, constRand⟩).map tagOf).length - 3)
        = [EventTag.act 7 (steps_per_phase "Micro"),
            EventTag.pcomplete "Final Assessment" 7, EventTag.complete]) ∧
      (((simulate_policy_impact_stream_events none none none cityFetchFailure none
          ⟨"Urban Traffic", "Micro", 10, constRand⟩).filterMap progressOf).drop
            (((simulate_policy_impact_stream_events none none none cityFetchFailure none
              ⟨"Urban Traffic", "Micro", 10, constRand⟩).filterMap progressOf).length - 3)
        = [100, 100, 100]) :=
  C3_progress_invariants none none none cityFetchFailure none
    ⟨"Urban Traffic", "Micro", 10, constRand⟩ (Or.inl rfl)

/-! ## Claim C4: metrics never negative -/

/-- C4: for every run whose initial metrics vector is non-negative, every
metrics snapshot the generator body is written to emit is non-negative in
every field (each per-step update clamps each affected metric at a floor of
0, integer metrics truncating the adjusted delta before adding) — but the
code never emits any snapshot: every run raises `AttributeError`
(`AgentType.SIMULATION_AGENT` is not an enum member) before the first
yield. -/
theorem C4_metrics_nonneg (policy_analysis : Option PolicyAnalysis)
    (city_data : Option CityData) (fetch_policy : Option PolicyAnalysis)
    (fetch_city : String → CityData) (gen_summary : Option String) (p : SimParams)
    (h : (initialMetrics ((resolvedCity policy_analysis city_data fetch_policy
        fetch_city).numbers.getD emptyCityNumbers)).Nonneg) :
    simulate_policy_impact_stream policy_analysis city_data fetch_policy fetch_city
        gen_summary p = ([], some "AttributeError: SIMULATION_AGENT") ∧
    ∀ x ∈ (simulate_policy_impact_stream_events policy_analysis city_data fetch_policy
        fetch_city gen_summary p).filterMap metricsOf, x.Nonneg := by
  refine ⟨simulate_run_raises _ _ _ _ _ _, ?_⟩
  intro x hx
  have hph := runPhases_nonneg p (steps_per_phase p.granularity) phases.enum
    (initialMetrics ((resolvedCity policy_analysis city_data fetch_policy
      fetch_city).numbers.getD emptyCityNumbers)) h
  simp only [simulate_policy_impact_stream_events, List.filterMap_cons, metricsOf,
    List.filterMap_append] at hx
  rcases List.mem_cons.mp hx with h0 | h1
  · exact h0 ▸ h
  · rcases List.mem_append.mp h1 with h2 | h3
    · exact hph.1 x h2
    · rcases List.mem_cons.mp h3 with h4 | h5
      · exact h4 ▸ hph.2
      · simp at h5

/-- Witness for C4 at a concrete run whose initial metrics are the documented
non-negative defaults. -/
theorem C4_metrics_nonneg_witness :
    simulate_policy_impact_stream none none none cityFetchFailure none
        ⟨"Urban Traffic", "Macro", 10, constRand⟩
        = ([], some "AttributeError: SIMULATION_AGENT") ∧
    ((simulate_policy_impact_stream_events none none none cityFetchFailure none
        ⟨"Urban Traffic", "Macro", 10, constRand⟩).filterMap metricsOf).all
      (fun m => decide m.Nonneg) = true := by
  have h := C4_metrics_nonneg none none none cityFetchFailure none
    ⟨"Urban Traffic", "Macro", 10, constRand⟩
    (by norm_num [initialMetrics, resolvedCity, resolvedPolicy, cityFetchFailure,
      emptyCityNumbers, Metrics.Nonneg])
  refine ⟨h.1, ?_⟩
  rw [List.all_eq_true]
  intro x hx
  exact decide_eq_true (h.2 x hx)

/-! ## Claim C9: only traffic congestion can decrease -/

/-- C9 (code bug): in the snapshot sequence the generator body is written to
emit, every metric other than `traffic_congestion` is non-decreasing: every
actor's base-delta rule assigns positive deltas to population, housing_units,
gdp_growth, affordability_index, air_quality and public_satisfaction, and the
change multiplier is positive, so only `traffic_congestion` can decrease —
but the code never emits successive snapshots: every run raises
`AttributeError` (`AgentType.SIMULATION_AGENT` is not an enum member) before
the first yield. -/
theorem C9_non_traffic_monotone (policy_analysis : Option PolicyAnalysis)
    (city_data : Option CityData) (fetch_policy : Option PolicyAnalysis)
    (fetch_city : String → CityData) (gen_summary : Option String) (p : SimParams)
    (hrand : ∀ n, (p.rand n).InRange) :
    simulate_policy_impact_stream policy_analysis city_data fetch_policy fetch_city
        gen_summary p = ([], some "AttributeError: SIMULATION_AGENT") ∧
    List.Chain' NonTrafficLE ((simulate_policy_impact_stream_events policy_analysis city_data
      fetch_policy fetch_city gen_summary p).filterMap metricsOf) := by
  refine ⟨simulate_run_raises _ _ _ _ _ _, ?_⟩
  have hph := runPhases_chain p (steps_per_phase p.granularity) hrand phases.enum
    (initialMetrics ((resolvedCity policy_analysis city_data fetch_policy
      fetch_city).numbers.getD emptyCityNumbers))
  simp only [simulate_policy_impact_stream_events, List.filterMap_cons, metricsOf,
    List.filterMap_append, List.filterMap_nil]
  rw [← List.cons_append]
  refine List.Chain'.append hph.1 (List.chain'_singleton _) ?_
  intro x hx y hy
  rw [hph.2] at hx
  simp only [Option.mem_def, Option.some_inj] at hx
  simp only [List.head?_cons, Option.mem_def, Option.some_inj] at hy
  rw [← hx, ← hy]
  exact nonTrafficLE_refl _

theorem constRand_inRange (n : ℕ) : (constRand n).InRange := by
  norm_num [constRand, StepRand.InRange]

/-- Witness for C9 at a concrete run with an in-range oracle. -/
theorem C9_non_traffic_monotone_witness :
    simulate_policy_impact_stream none none none cityFetchFailure none
        ⟨"Urban Traffic", "Macro", 10, constRand⟩
        = ([], some "AttributeError: SIMULATION_AGENT") ∧
    List.Chain' NonTrafficLE ((simulate_policy_impact_stream_events none none none
      cityFetchFailure none
      ⟨"Urban Traffic", "Macro", 10, constRand⟩).filterMap metricsOf) :=
  C9_non_traffic_monotone none none none cityFetchFailure none
    ⟨"Urban Traffic", "Macro", 10, constRand⟩ constRand_inRange

/-! ## Claim C5: resilience to upstream failures -/

/-- C5 (code bug): the claim describes the intended resilient behaviour — the
event sequence the generator body is written to yield for a run whose
upstream lookups all fail starts with the documented defaults (policy intent
placeholder, empty affected areas, base metrics population 1000000 / housing
500000 / traffic 30 / gdp 2.5) and ends with a `simulation_complete` event
carrying the templated fallback sentence naming the city and the time
horizon — but the code raises instead of completing: every run, this one
included, raises `AttributeError` (`AgentType.SIMULATION_AGENT` is not an
enum member) before any event is emitted. -/
theorem C5_upstream_failure_defaults (st g : String) (th : ℤ) (rand : ℕ → StepRand) :
    run_simulation_stream none cityFetchFailure none ⟨st, g, th, rand⟩
        = ([], some "AttributeError: SIMULATION_AGENT") ∧
      (simulate_policy_impact_stream_events none none none cityFetchFailure none
          ⟨st, g, th, rand⟩).head?
        = some (SimEvent.simulation_start ⟨1000000, 500000, 30, 5/2, 65, 75, 60⟩
          "Policy implementation" [] st g th) ∧
      ∃ mf : Metrics,
        (simulate_policy_impact_stream_events none none none cityFetchFailure none
            ⟨st, g, th, rand⟩).getLast?
          = some (SimEvent.simulation_complete mf
            (fallback_summary "San Francisco" th) "Policy implementation" [] th 100) := by
  refine ⟨simulate_run_raises none none none cityFetchFailure none ⟨st, g, th, rand⟩,
    rfl, ?_⟩
  refine ⟨(runPhases ⟨st, g, th, rand⟩ (steps_per_phase g) phases.enum
    (initialMetrics emptyCityNumbers)).1, ?_⟩
  simp only [simulate_policy_impact_stream_events]
  rw [← List.cons_append, List.getLast?_concat]
  rfl

/-! ## Claim C1: granularity validation -/

/-- C1 counterexample: the engine does not reject the unrecognized
granularity "Bogus" with a granularity error: its outcome is identical to the
valid "Macro" — both runs abort with the same `AttributeError` (an
enum-member typo unrelated to parameter validation) — and every
granularity-dependent computation (steps per phase, change multiplier, the
event sequence the body is written to yield) silently gives "Bogus" exactly
the Macro behaviour. -/
theorem C1_counterexample :
    run_simulation_stream none cityFetchFailure none
        ⟨"Urban Traffic", "Bogus", 10, constRand⟩
      = ([], some "AttributeError: SIMULATION_AGENT") ∧
    run_simulation_stream none cityFetchFailure none
        ⟨"Urban Traffic", "Macro", 10, constRand⟩
      = ([], some "AttributeError: SIMULATION_AGENT") ∧
    steps_per_phase "Bogus" = steps_per_phase "Macro" ∧
      change_multiplier "Bogus" = change_multiplier "Macro" ∧
      (simulate_policy_impact_stream_events none none none cityFetchFailure none
          ⟨"Urban Traffic", "Bogus", 10, constRand⟩).map tagOf = tagShape 3 := by
  refine ⟨rfl, rfl, by decide, ?_, ?_⟩
  · unfold change_multiplier
    rw [if_neg (by decide : ¬("Bogus" = "Micro")), if_neg (by decide : ¬("Macro" = "Micro"))]
  · rw [simulate_map_tagOf]
    dsimp only
    rw [show steps_per_phase "Bogus" = 3 from by decide]

/-- C1 amended: the engine performs no granularity validation: every
granularity value other than "Micro" is silently given the Macro behaviour —
3 steps per phase, change multiplier 1.5, the Macro activity tables, and a
Macro-shaped would-be event sequence.  Every run does abort with an error
before any event is emitted, but it is the same unrelated `AttributeError`
(`AgentType.SIMULATION_AGENT` undefined) for valid and unrecognized
granularities alike, not a rejection of the parameters. -/
theorem C1_amended_no_granularity_validation (g : String) (hg : g ≠ "Micro")
    (fetch_policy : Option PolicyAnalysis) (fetch_city : String → CityData)
    (gen_summary : Option String) (st : String) (th : ℤ) (rand : ℕ → StepRand) :
    steps_per_phase g = 3 ∧ change_multiplier g = 3/2 ∧
      activities_dict g = activities_dict "Macro" ∧
      run_simulation_stream fetch_policy fetch_city gen_summary ⟨st, g, th, rand⟩
        = ([], some "AttributeError: SIMULATION_AGENT") ∧
      run_simulation_stream fetch_policy fetch_city gen_summary ⟨st, "Macro", th, rand⟩
        = ([], some "AttributeError: SIMULATION_AGENT") ∧
      (simulate_policy_impact_stream_events none none fetch_policy fetch_city gen_summary
        ⟨st, g, th, rand⟩).map tagOf = tagShape 3 := by
  have h3 : steps_per_phase g = 3 := by simp [steps_per_phase, hg]
  refine ⟨h3, by simp [change_multiplier, hg], by simp [activities_dict, hg],
    rfl, rfl, ?_⟩
  rw [simulate_map_tagOf]
  show tagShape (steps_per_phase g) = tagShape 3
  rw [h3]

/-- Witness for C1 amended at the concrete granularity "Bogus". -/
theorem C1_amended_no_granularity_validation_witness :
    steps_per_phase "Bogus" = 3 ∧ change_multiplier "Bogus" = 3/2 ∧
      activities_dict "Bogus" = activities_dict "Macro" ∧
      run_simulation_stream none cityFetchFailure none
          ⟨"Urban Traffic", "Bogus", 10, constRand⟩
        = ([], some "AttributeError: SIMULATION_AGENT") ∧
      run_simulation_stream none cityFetchFailure none
          ⟨"Urban Traffic", "Macro", 10, constRand⟩
        = ([], some "AttributeError: SIMULATION_AGENT") ∧
      (simulate_policy_impact_stream_events none none none cityFetchFailure none
        ⟨"Urban Traffic", "Bogus", 10, constRand⟩).map tagOf = tagShape 3 :=
  C1_amended_no_granularity_validation "Bogus" (by decide) none cityFetchFailure none
    "Urban Traffic" 10 constRand
